import Mathlib

/-!
Shallow embedding of the cinema booking backend (`cinema/views.py`) and the
parts of its data model the view layer queries.  Rows of the relational
store become Lean structures, querysets become lists, and Python exceptions
become an `Except` error channel.
-/

/-- Equality of `Except` results is decidable componentwise (used to
evaluate the embedded endpoints on concrete inputs). -/
instance {ε α : Type} [DecidableEq ε] [DecidableEq α] : DecidableEq (Except ε α) := fun x y =>
  match x, y with
  | .ok a, .ok b =>
    if h : a = b then .isTrue (by rw [h]) else .isFalse (by simp [h])
  | .error a, .error b =>
    if h : a = b then .isTrue (by rw [h]) else .isFalse (by simp [h])
  | .ok _, .error _ => .isFalse (by simp)
  | .error _, .ok _ => .isFalse (by simp)

namespace Cinema

/-- The two error classes relevant to the endpoints: `valueError` models
Python's built-in `ValueError` (raised by `int()` and
`datetime.strptime`; uncaught by the views, it surfaces as a server
error), while `validationError` models
`rest_framework.exceptions.ValidationError` (caught by the framework and
surfaced as an HTTP 400 response). -/
inductive PyError where
  | valueError : PyError
  | validationError : PyError
deriving DecidableEq, Repr

/-- A row of the `CinemaHall` table. -/
structure CinemaHall where
  id : Nat
  rows : Nat
  seats_in_row : Nat
deriving DecidableEq, Repr

/-- A row of the `Movie` table, with its many-to-many genre and actor
links flattened into lists of related ids. -/
structure Movie where
  id : Nat
  title : String
  genres : List Nat
  actors : List Nat
deriving DecidableEq, Repr

/-- A calendar date, as produced by `datetime.date`. -/
structure PyDate where
  year : Nat
  month : Nat
  day : Nat
deriving DecidableEq, Repr

/-- A timestamp: the calendar day of the show plus the time within the
day (seconds); `show_time__date` projects out the `date` field. -/
structure PyDateTime where
  date : PyDate
  secondOfDay : Nat
deriving DecidableEq, Repr

/-- A row of the `MovieSession` table. -/
structure MovieSession where
  id : Nat
  show_time : PyDateTime
  movie_id : Nat
  cinema_hall_id : Nat
deriving DecidableEq, Repr

/-- A row of the `Order` table. -/
structure Order where
  id : Nat
  user_id : Nat
deriving DecidableEq, Repr

/-- A row of the `Ticket` table. -/
structure Ticket where
  id : Nat
  movie_session_id : Nat
  order_id : Nat
  row : Nat
  seat : Nat
deriving DecidableEq, Repr

/-- The relational store the views query. -/
structure DB where
  halls : List CinemaHall
  movies : List Movie
  sessions : List MovieSession
  orders : List Order
  tickets : List Ticket
deriving DecidableEq, Repr

/-! ### Models of the Python built-ins the views call -/

/-- Whitespace characters stripped by `int()` before parsing. -/
def isPySpace (c : Char) : Bool :=
  c = ' ' || c = '\t' || c = '\n' || c = '\r' || c = '\x0b' || c = '\x0c'

/-- Value of a nonempty list of decimal digits. -/
def digitsToNat (cs : List Char) : Nat :=
  cs.foldl (fun acc c => 10 * acc + (c.toNat - '0'.toNat)) 0

/-- Core of CPython `int(str)` on ASCII input: strip surrounding
whitespace, allow one optional sign, then require a nonempty run of
decimal digits.  (Underscore digit grouping and non-ASCII digits are not
modelled.)  `none` models the `ValueError` raise. -/
def pyIntCore (cs : List Char) : Option Int :=
  let body := ((cs.dropWhile isPySpace).reverse.dropWhile isPySpace).reverse
  match body with
  | '-' :: ds => if ds ≠ [] ∧ ds.all Char.isDigit then some (-(digitsToNat ds : Int)) else none
  | '+' :: ds => if ds ≠ [] ∧ ds.all Char.isDigit then some (digitsToNat ds : Int) else none
  | ds => if ds ≠ [] ∧ ds.all Char.isDigit then some (digitsToNat ds : Int) else none

/-- `int(s)`: parse or raise `ValueError`. -/
def pyInt (s : String) : Except PyError Int :=
  match pyIntCore s.data with
  | some n => .ok n
  | none => .error .valueError

/-- Split a character list at every occurrence of `sep`, keeping empty
parts (the behaviour of Python's `str.split(sep)` with a one-character
separator). -/
def splitOnChar (sep : Char) : List Char → List (List Char)
  | [] => [[]]
  | c :: rest =>
    if c = sep then [] :: splitOnChar sep rest
    else
      match splitOnChar sep rest with
      | [] => [[c]]
      | p :: ps => (c :: p) :: ps

/-- Python's `s.split(sep)` for a one-character separator. -/
def pySplit (s : String) (sep : Char) : List String :=
  (splitOnChar sep s.data).map fun cs => ⟨cs⟩

/-- ASCII lower-casing of one character, as both Python's `str.lower`
and SQL `LOWER` do on ASCII input. -/
def asciiLower (c : Char) : Char :=
  if 'A' ≤ c ∧ c ≤ 'Z' then Char.ofNat (c.toNat + 32) else c

/-- Does `needle` occur at the head of `hay`? -/
def charsStartWith : List Char → List Char → Bool
  | [], _ => true
  | _ :: _, [] => false
  | a :: as, b :: bs => a = b && charsStartWith as bs

/-- Does `needle` occur contiguously anywhere in `hay`? -/
def charsContain (needle : List Char) : List Char → Bool
  | [] => charsStartWith needle []
  | c :: rest => charsStartWith needle (c :: rest) || charsContain needle rest

/-- Django's `title__icontains=t`: case-insensitive substring match
(the needle is escaped by the ORM, so it is a literal match). -/
def icontains (hay needle : String) : Bool :=
  charsContain (needle.data.map asciiLower) (hay.data.map asciiLower)

/-- Number of days in a month, as checked by `datetime.date`. -/
def daysInMonth (y m : Nat) : Nat :=
  if m = 2 then (if (y % 4 = 0 ∧ y % 100 ≠ 0) ∨ y % 400 = 0 then 29 else 28)
  else if m = 4 ∨ m = 6 ∨ m = 9 ∨ m = 11 then 30
  else 31

/-- `datetime.strptime(s, "%Y-%m-%d").date()`: `%Y` matches exactly four
digits, `%m` and `%d` one or two; the values must form a real calendar
date with year ≥ 1 (else `ValueError`); no surrounding or interleaved
text is tolerated. -/
def strptimeYmd (s : String) : Except PyError PyDate :=
  match pySplit s '-' with
  | [ys, ms, ds] =>
    if ys.data.all Char.isDigit ∧ ys.length = 4 ∧
       ms.data.all Char.isDigit ∧ 1 ≤ ms.length ∧ ms.length ≤ 2 ∧
       ds.data.all Char.isDigit ∧ 1 ≤ ds.length ∧ ds.length ≤ 2 then
      if 1 ≤ digitsToNat ys.data ∧
         1 ≤ digitsToNat ms.data ∧ digitsToNat ms.data ≤ 12 ∧
         1 ≤ digitsToNat ds.data ∧
         digitsToNat ds.data ≤ daysInMonth (digitsToNat ys.data) (digitsToNat ms.data) then
        .ok ⟨digitsToNat ys.data, digitsToNat ms.data, digitsToNat ds.data⟩
      else .error .valueError
    else .error .valueError
  | _ => .error .valueError

/-! ### `MovieViewSet` -/

/-- The list comprehension `[int(str_id) for str_id in ...]`: `int()`
is applied left to right and the first `ValueError` aborts. -/
def intListOf : List String → Except PyError (List Int)
  | [] => .ok []
  | s :: rest =>
    match pyInt s with
    | .error e => .error e
    | .ok v =>
      match intListOf rest with
      | .error e => .error e
      | .ok vs => .ok (v :: vs)

/-- `MovieViewSet._params_to_ints(qs)`:
`[int(str_id) for str_id in qs.split(",")]`. -/
def params_to_ints (qs : String) : Except PyError (List Int) :=
  intListOf (pySplit qs ',')

/-- `queryset.filter(genres__id__in=ids)` (same shape for `actors`): the
SQL join emits one output row per matching related id, so a movie
related to several requested ids appears several times until
`.distinct()`. -/
def filterRelIn (sel : Movie → List Nat) (ms : List Movie) (ids : List Int) : List Movie :=
  ms.flatMap fun m => ((sel m).filter fun g => Int.ofNat g ∈ ids).map fun _ => m

/-- The `if title: queryset = queryset.filter(title__icontains=title)`
block: a missing or empty param is falsy and the filter is skipped. -/
def filterByTitle (t? : Option String) (qs : List Movie) : List Movie :=
  match t? with
  | some t => if t ≠ "" then qs.filter (fun m => icontains m.title t) else qs
  | none => qs

/-- The `if genres: ... queryset.filter(genres__id__in=genres_ids)` block
(and its `actors` twin): a missing or empty param is falsy and skipped;
a present one is split and parsed by `_params_to_ints`, whose
`ValueError` propagates. -/
def filterByRel (sel : Movie → List Nat) (p? : Option String) (qs : List Movie) :
    Except PyError (List Movie) :=
  match p? with
  | some g =>
    if g ≠ "" then do
      let ids ← params_to_ints g
      pure (filterRelIn sel qs ids)
    else pure qs
  | none => pure qs

/-- `MovieViewSet.get_queryset`: the three optional filters composed
conjunctively over `Movie.objects`, then `.distinct()` (SQL
`SELECT DISTINCT`: identical rows collapse). -/
def moviesGetQueryset (db : DB) (title genres actors : Option String) :
    Except PyError (List Movie) := do
  let q2 ← filterByRel Movie.genres genres (filterByTitle title db.movies)
  let q3 ← filterByRel Movie.actors actors q2
  pure q3.dedup

/-! ### `MovieSessionViewSet` -/

/-- The foreign-key join `cinema_hall` of a session. -/
def getHall (db : DB) (hallId : Nat) : Option CinemaHall :=
  db.halls.find? fun h => h.id = hallId

/-- `Count("tickets")` for one session: the number of `Ticket` rows whose
`movie_session` foreign key is this session. -/
def countTickets (db : DB) (sessionId : Nat) : Nat :=
  (db.tickets.filter fun t => t.movie_session_id = sessionId).length

/-- The queryset annotation on `MovieSessionViewSet`:
`F("cinema_hall__rows") * F("cinema_hall__seats_in_row") - Count("tickets")`,
recomputed from the live tables on every read, never stored.  `none`
models the (impossible in a consistent store) dangling hall foreign
key. -/
def tickets_available (db : DB) (s : MovieSession) : Option Int :=
  (getHall db s.cinema_hall_id).map fun h =>
    (h.rows : Int) * (h.seats_in_row : Int) - (countTickets db s.id : Int)

/-- The `if date: ... queryset.filter(show_time__date=date)` block: a
missing or empty param is falsy and skipped; a present one is parsed
with `strptime "%Y-%m-%d"`, whose `ValueError` propagates, and matched
against the calendar day of `show_time`. -/
def filterByDate (d? : Option String) (qs : List MovieSession) :
    Except PyError (List MovieSession) :=
  match d? with
  | some dstr =>
    if dstr ≠ "" then do
      let d ← strptimeYmd dstr
      pure (qs.filter fun s => s.show_time.date = d)
    else pure qs
  | none => pure qs

/-- The `if movie_id_str: queryset.filter(movie_id=int(movie_id_str))`
block: a missing or empty param is falsy and skipped; a present one is
parsed by `int()`, whose `ValueError` propagates. -/
def filterByMovieId (m? : Option String) (qs : List MovieSession) :
    Except PyError (List MovieSession) :=
  match m? with
  | some mstr =>
    if mstr ≠ "" then do
      let mid ← pyInt mstr
      pure (qs.filter fun s => (s.movie_id : Int) = mid)
    else pure qs
  | none => pure qs

/-- `MovieSessionViewSet.get_queryset`: the two optional filters composed
conjunctively over the annotated base queryset. -/
def sessionsGetQueryset (db : DB) (date movie : Option String) :
    Except PyError (List MovieSession) := do
  let q1 ← filterByDate date db.sessions
  let q2 ← filterByMovieId movie q1
  pure q2

/-! ### `OrderViewSet` -/

/-- `OrderViewSet.get_queryset`:
`Order.objects.filter(user=self.request.user)`. -/
def ordersGetQueryset (db : DB) (userId : Nat) : List Order :=
  db.orders.filter fun o => o.user_id = userId

/-- One requested ticket inside an order-creation payload. -/
structure TicketRequest where
  movie_session_id : Nat
  row : Nat
  seat : Nat
deriving DecidableEq, Repr

/-- The validated payload of `orders.create`: the nested ticket requests
plus whatever owner field the caller may have put in the request body. -/
structure OrderPayload where
  tickets : List TicketRequest
  user_field : Option Nat
deriving DecidableEq, Repr

/-- DRF `BaseSerializer.save(**kwargs)` merges the view's kwargs over the
deserialized payload (`validated_data = {**self.validated_data,
**kwargs}`), so a kwarg wins over any same-named payload field.
`OrderViewSet.perform_create` calls `serializer.save(user=self.request.user)`. -/
def savedUserId (payloadUser kwargsUser : Option Nat) : Option Nat :=
  kwargsUser <|> payloadUser

/-- Modelled from the spec: ticket bounds validation lives in
`cinema/models.py` / `cinema/serializers.py`, which are not in the
provided source.  Per the spec's invariant "row ≤ hall.rows, seat ≤
hall.seats-per-row" (rows and seats are numbered from 1). -/
def ticketWithinBounds (h : CinemaHall) (row seat : Nat) : Bool :=
  1 ≤ row && row ≤ h.rows && 1 ≤ seat && seat ≤ h.seats_in_row

/-- Is the seat `(sessionId, row, seat)` already occupied by some ticket
in `ts`? -/
def seatTaken (ts : List Ticket) (sessionId row seat : Nat) : Bool :=
  ts.any fun t => t.movie_session_id = sessionId && t.row = row && t.seat = seat

/-- Modelled from the spec: one ticket request is acceptable when its
session exists, its seat lies within the session's hall bounds, and the
seat is occupied neither by a persisted ticket (`existing`) nor by an
earlier request of the same payload (`accepted`) — "(row, seat) unique
per session", system-wide. -/
def ticketOk (db : DB) (accepted : List Ticket) (tr : TicketRequest) : Bool :=
  match db.sessions.find? fun s => s.id = tr.movie_session_id with
  | none => false
  | some s =>
    match getHall db s.cinema_hall_id with
    | none => false
    | some h =>
      ticketWithinBounds h tr.row tr.seat &&
      !seatTaken db.tickets tr.movie_session_id tr.row tr.seat &&
      !seatTaken accepted tr.movie_session_id tr.row tr.seat

/-- The shadow ticket a validated request contributes to the duplicate
check for the later requests of the same payload. -/
def shadowTicket (tr : TicketRequest) : Ticket :=
  ⟨0, tr.movie_session_id, 0, tr.row, tr.seat⟩

/-- Modelled from the spec: validate all ticket requests of one payload in
order, each against the store and against the requests before it. -/
def checkTickets (db : DB) : List TicketRequest → List Ticket → Bool
  | [], _ => true
  | tr :: rest, accepted =>
    ticketOk db accepted tr && checkTickets db rest (shadowTicket tr :: accepted)

/-- A fresh primary key for the orders table. -/
def freshOrderId (db : DB) : Nat :=
  (db.orders.map Order.id).foldr max 0 + 1

/-- A fresh first primary key for the new ticket rows. -/
def freshTicketId (db : DB) : Nat :=
  (db.tickets.map Ticket.id).foldr max 0 + 1

/-- The ticket rows persisted for a validated payload. -/
def ticketsOf (orderId : Nat) : List TicketRequest → Nat → List Ticket
  | [], _ => []
  | tr :: rest, base =>
    ⟨base, tr.movie_session_id, orderId, tr.row, tr.seat⟩ :: ticketsOf orderId rest (base + 1)

/-- Modelled from the spec: `orders.create`.  The view's
`perform_create` (in source) attributes the order to the authenticated
caller via `serializer.save(user=self.request.user)`; the serializer
(not in source) atomically validates every nested ticket and persists
the order together with all its tickets, or raises `ValidationError`
and persists nothing.  The second component of the result is the store
afterwards: unchanged on error. -/
def ordersCreate (db : DB) (caller : Nat) (p : OrderPayload) :
    Except PyError Order × DB :=
  if p.tickets = [] then (.error .validationError, db)
  else if checkTickets db p.tickets [] then
    (.ok ⟨freshOrderId db, (savedUserId p.user_field (some caller)).getD caller⟩,
     { db with
       orders := db.orders ++
         [⟨freshOrderId db, (savedUserId p.user_field (some caller)).getD caller⟩],
       tickets := db.tickets ++
         ticketsOf (freshOrderId db) p.tickets (freshTicketId db) })
  else (.error .validationError, db)

/-! ### Exposed actions per viewset

Translated from the mixin lists in `cinema/views.py`; DRF's
`viewsets.ModelViewSet` is `CreateModelMixin + RetrieveModelMixin +
UpdateModelMixin + PartialUpdateModelMixin + DestroyModelMixin +
ListModelMixin`, while `GenericViewSet` alone contributes no action. -/

/-- The router-exposed actions of a DRF viewset. -/
inductive ViewAction where
  | list | create | retrieve | update | partial_update | destroy | upload_image
deriving DecidableEq, Repr

/-- `GenreViewSet(mixins.CreateModelMixin, mixins.ListModelMixin, GenericViewSet)`. -/
def genreViewSetActions : List ViewAction := [.create, .list]

/-- `ActorViewSet(mixins.CreateModelMixin, mixins.ListModelMixin, GenericViewSet)`. -/
def actorViewSetActions : List ViewAction := [.create, .list]

/-- `CinemaHallViewSet(mixins.CreateModelMixin, mixins.ListModelMixin, GenericViewSet)`. -/
def cinemaHallViewSetActions : List ViewAction := [.create, .list]

/-- `MovieViewSet(ListModelMixin, CreateModelMixin, RetrieveModelMixin,
GenericViewSet)` plus the extra `@action` route `upload-image`. -/
def movieViewSetActions : List ViewAction := [.list, .create, .retrieve, .upload_image]

/-- `MovieSessionViewSet(viewsets.ModelViewSet)`: the full action set. -/
def movieSessionViewSetActions : List ViewAction :=
  [.list, .create, .retrieve, .update, .partial_update, .destroy]

/-- `OrderViewSet(ListModelMixin, CreateModelMixin, GenericViewSet)`. -/
def orderViewSetActions : List ViewAction := [.list, .create]

/-- All exposed viewsets with their action sets. -/
def allViewSets : List (String × List ViewAction) :=
  [("genres", genreViewSetActions),
   ("actors", actorViewSetActions),
   ("cinema_halls", cinemaHallViewSetActions),
   ("movies", movieViewSetActions),
   ("movie_sessions", movieSessionViewSetActions),
   ("orders", orderViewSetActions)]

/-! ### Spec-side per-filter match predicates

These transcribe the spec's "per-filter match sets": an absent or empty
parameter matches every movie, `title` is a case-insensitive substring
match, `genres`/`actors` match a movie having *any* of the listed ids. -/

/-- Match set of the `title` filter. -/
def titleMatches (t? : Option String) (m : Movie) : Bool :=
  match t? with
  | some t => if t ≠ "" then icontains m.title t else true
  | none => true

/-- Match set of the `genres` (resp. `actors`) filter; a parameter that
does not parse matches nothing (the request errors instead of
answering). -/
def relMatches (sel : Movie → List Nat) (p? : Option String) (m : Movie) : Bool :=
  match p? with
  | some g =>
    if g ≠ "" then
      match params_to_ints g with
      | .ok ids => (sel m).any fun x => Int.ofNat x ∈ ids
      | .error _ => false
    else true
  | none => true

/-- No two tickets of the list occupy the same `(session, row, seat)`. -/
def seatsNodup (ts : List Ticket) : Prop :=
  ts.Pairwise fun a b =>
    ¬(a.movie_session_id = b.movie_session_id ∧ a.row = b.row ∧ a.seat = b.seat)

/-- A ticket request whose seat lies outside its session's hall. -/
def requestOutOfBounds (db : DB) (tr : TicketRequest) : Prop :=
  ∃ s, (db.sessions.find? fun x => x.id = tr.movie_session_id) = some s ∧
    ∃ h, getHall db s.cinema_hall_id = some h ∧
      ticketWithinBounds h tr.row tr.seat = false

/-! ### Concrete sample data (used by the evaluation witnesses) -/

/-- A 5 × 10 hall (capacity 50). -/
def hall1 : CinemaHall := ⟨1, 5, 10⟩

/-- A movie tagged with genres 1, 2 and actor 1. -/
def movie1 : Movie := ⟨1, "Inception", [1, 2], [1]⟩

/-- A movie tagged with genre 2 and actor 2. -/
def movie2 : Movie := ⟨2, "Matrix", [2], [2]⟩

/-- A session of `movie1` in `hall1` on 2024-10-10. -/
def sess1 : MovieSession := ⟨1, ⟨⟨2024, 10, 10⟩, 3600⟩, 1, 1⟩

/-- A store with one hall, two movies, one session carrying three sold
tickets on one order. -/
def sampleDB : DB :=
  ⟨[hall1], [movie1, movie2], [sess1], [⟨1, 5⟩],
   [⟨1, 1, 1, 1, 1⟩, ⟨2, 1, 1, 1, 2⟩, ⟨3, 1, 1, 2, 3⟩]⟩

/-! ### Helper lemmas -/

theorem error_bind {ε α β : Type} (e : ε) (f : α → Except ε β) :
    (Except.error e >>= f : Except ε β) = .error e := rfl

theorem ok_bind {ε α β : Type} (a : α) (f : α → Except ε β) :
    (Except.ok a >>= f : Except ε β) = f a := rfl

theorem pure_eq_ok {ε α : Type} (a : α) :
    (pure a : Except ε α) = .ok a := rfl

theorem pyInt_error {s : String} {e : PyError} (h : pyInt s = .error e) :
    e = .valueError := by
  unfold pyInt at h
  cases hc : pyIntCore s.data <;> rw [hc] at h
  · exact (Except.error.injEq _ _ ▸ congrArg id h).symm ▸ rfl
  · exact Except.noConfusion h

theorem pyInt_empty : pyInt "" = .error .valueError := by decide

theorem intListOf_error {l : List String}
    (h : ∃ tok ∈ l, pyIntCore tok.data = none) :
    intListOf l = .error .valueError := by
  induction l with
  | nil => simp at h
  | cons a rest ih =>
    rcases h with ⟨tok, htok, hbad⟩
    rcases List.mem_cons.mp htok with rfl | hmem
    · have : pyInt tok = .error .valueError := by unfold pyInt; rw [hbad]
      simp [intListOf, this]
    · cases ha : pyInt a with
      | error e =>
        have he : e = .valueError := pyInt_error ha
        simp [intListOf, ha, he]
      | ok v =>
        have hr := ih ⟨tok, hmem, hbad⟩
        simp [intListOf, ha, hr]

theorem params_to_ints_error {g : String}
    (h : ∃ tok ∈ pySplit g ',', pyIntCore tok.data = none) :
    params_to_ints g = .error .valueError :=
  intListOf_error h

theorem strptimeYmd_error {s : String} {e : PyError}
    (h : strptimeYmd s = .error e) : e = .valueError := by
  unfold strptimeYmd at h
  split at h
  · split at h
    · split at h
      · exact Except.noConfusion h
      · cases h; rfl
    · cases h; rfl
  · cases h; rfl

theorem strptimeYmd_empty : strptimeYmd "" = .error .valueError := by decide

theorem strptimeYmd_ok_ne {s : String} {d : PyDate}
    (h : strptimeYmd s = .ok d) : s ≠ "" := by
  intro hs
  rw [hs, strptimeYmd_empty] at h
  exact Except.noConfusion h

theorem pyInt_ok_ne {s : String} {n : Int}
    (h : pyInt s = .ok n) : s ≠ "" := by
  intro hs
  rw [hs, pyInt_empty] at h
  exact Except.noConfusion h

theorem mem_filterRelIn {sel : Movie → List Nat} {ms : List Movie}
    {ids : List Int} {m : Movie} :
    m ∈ filterRelIn sel ms ids ↔
      m ∈ ms ∧ ((sel m).any fun g => decide (Int.ofNat g ∈ ids)) = true := by
  rw [filterRelIn, List.mem_flatMap]
  constructor
  · rintro ⟨a, ha, hm⟩
    rcases List.mem_map.mp hm with ⟨g, hg, rfl⟩
    rcases List.mem_filter.mp hg with ⟨hgsel, hgid⟩
    exact ⟨ha, List.any_eq_true.mpr ⟨g, hgsel, hgid⟩⟩
  · rintro ⟨hm, hany⟩
    rcases List.any_eq_true.mp hany with ⟨g, hgsel, hgid⟩
    exact ⟨m, hm, List.mem_map.mpr ⟨g, List.mem_filter.mpr ⟨hgsel, hgid⟩, rfl⟩⟩

theorem mem_filterByTitle {t? : Option String} {qs : List Movie} {m : Movie} :
    m ∈ filterByTitle t? qs ↔ m ∈ qs ∧ titleMatches t? m = true := by
  cases t? with
  | none => simp [filterByTitle, titleMatches]
  | some t =>
    by_cases ht : t = ""
    · subst ht
      simp [filterByTitle, titleMatches]
    · simp [filterByTitle, titleMatches, ht, List.mem_filter]

theorem filterByRel_ok {sel : Movie → List Nat} {p? : Option String}
    {qs out : List Movie} (h : filterByRel sel p? qs = .ok out) (m : Movie) :
    m ∈ out ↔ m ∈ qs ∧ relMatches sel p? m = true := by
  cases p? with
  | none =>
    rw [filterByRel, pure_eq_ok, Except.ok.injEq] at h
    subst h
    simp [relMatches]
  | some g =>
    by_cases hg : g = ""
    · subst hg
      simp only [filterByRel, ne_eq, not_true_eq_false, if_false, ite_false,
        pure_eq_ok, Except.ok.injEq, reduceIte] at h
      subst h
      simp [relMatches]
    · cases hp : params_to_ints g with
      | error e =>
        rw [filterByRel, if_pos hg, hp, error_bind] at h
        exact Except.noConfusion h
      | ok ids =>
        rw [filterByRel, if_pos hg, hp, ok_bind, pure_eq_ok, Except.ok.injEq] at h
        subst h
        rw [mem_filterRelIn]
        have : relMatches sel (some g) m = (sel m).any fun x => decide (Int.ofNat x ∈ ids) := by
          rw [relMatches, if_pos hg, hp]
        rw [this]

theorem seatTaken_eq_false {ts : List Ticket} {sid r st : Nat} :
    seatTaken ts sid r st = false ↔
      ∀ t ∈ ts, ¬(t.movie_session_id = sid ∧ t.row = r ∧ t.seat = st) := by
  simp [seatTaken, List.any_eq_false, Bool.and_eq_true, decide_eq_true_eq, not_and]

theorem ticketOk_false_of_oob {db : DB} {tr : TicketRequest}
    (h : requestOutOfBounds db tr) (acc : List Ticket) :
    ticketOk db acc tr = false := by
  rcases h with ⟨s, hs, hl, hhall, hb⟩
  unfold ticketOk
  simp [hs, hhall, hb]

theorem ticketOk_false_of_taken {db : DB} {tr : TicketRequest}
    (h : seatTaken db.tickets tr.movie_session_id tr.row tr.seat = true)
    (acc : List Ticket) :
    ticketOk db acc tr = false := by
  unfold ticketOk
  cases hf : db.sessions.find? fun s => s.id = tr.movie_session_id with
  | none => simp [hf]
  | some s =>
    cases hh : getHall db s.cinema_hall_id with
    | none => simp [hf, hh]
    | some hl => simp [hf, hh, h]

theorem checkTickets_false {db : DB} {tr : TicketRequest}
    (hbad : ∀ acc, ticketOk db acc tr = false) :
    ∀ (trs : List TicketRequest) (acc : List Ticket),
      tr ∈ trs → checkTickets db trs acc = false := by
  intro trs
  induction trs with
  | nil => intro acc h; simp at h
  | cons a rest ih =>
    intro acc hmem
    rcases List.mem_cons.mp hmem with rfl | hmem'
    · simp [checkTickets, hbad acc]
    · cases ho : ticketOk db acc a with
      | false => simp [checkTickets, ho]
      | true => simp [checkTickets, ho, ih _ hmem']

theorem checkTickets_each {db : DB} :
    ∀ (trs : List TicketRequest) (acc : List Ticket),
      checkTickets db trs acc = true →
      ∀ tr ∈ trs,
        ∃ s, (db.sessions.find? fun x => x.id = tr.movie_session_id) = some s ∧
          ∃ hl, getHall db s.cinema_hall_id = some hl ∧
            ticketWithinBounds hl tr.row tr.seat = true ∧
            seatTaken db.tickets tr.movie_session_id tr.row tr.seat = false := by
  intro trs
  induction trs with
  | nil => intro acc _ tr htr; simp at htr
  | cons a rest ih =>
    intro acc hchk tr htr
    rw [checkTickets, Bool.and_eq_true] at hchk
    obtain ⟨hok, hrest⟩ := hchk
    rcases List.mem_cons.mp htr with rfl | hmem
    · unfold ticketOk at hok
      cases hf : db.sessions.find? fun x => x.id = tr.movie_session_id with
      | none => simp [hf] at hok
      | some s =>
        simp only [hf] at hok
        cases hh : getHall db s.cinema_hall_id with
        | none => simp [hh] at hok
        | some hl =>
          simp only [hh, Bool.and_eq_true, Bool.not_eq_true'] at hok
          exact ⟨s, rfl, hl, hh, hok.1.1, hok.1.2⟩
    · exact ih _ hrest tr hmem

theorem checkTickets_acc {db : DB} :
    ∀ (trs : List TicketRequest) (acc : List Ticket),
      checkTickets db trs acc = true →
      ∀ tr ∈ trs, seatTaken acc tr.movie_session_id tr.row tr.seat = false := by
  intro trs
  induction trs with
  | nil => intro acc _ tr htr; simp at htr
  | cons a rest ih =>
    intro acc hchk tr htr
    rw [checkTickets, Bool.and_eq_true] at hchk
    obtain ⟨hok, hrest⟩ := hchk
    rcases List.mem_cons.mp htr with rfl | hmem
    · unfold ticketOk at hok
      cases hf : db.sessions.find? fun x => x.id = tr.movie_session_id with
      | none => simp [hf] at hok
      | some s =>
        simp only [hf] at hok
        cases hh : getHall db s.cinema_hall_id with
        | none => simp [hh] at hok
        | some hl =>
          simp only [hh, Bool.and_eq_true, Bool.not_eq_true'] at hok
          exact hok.2
    · have hs := ih _ hrest tr hmem
      rw [seatTaken_eq_false] at hs ⊢
      intro t ht
      exact hs t (List.mem_cons_of_mem _ ht)

theorem checkTickets_pairwise {db : DB} :
    ∀ (trs : List TicketRequest) (acc : List Ticket),
      checkTickets db trs acc = true →
      trs.Pairwise fun a b =>
        ¬(a.movie_session_id = b.movie_session_id ∧ a.row = b.row ∧ a.seat = b.seat) := by
  intro trs
  induction trs with
  | nil => intro acc _; exact List.Pairwise.nil
  | cons a rest ih =>
    intro acc hchk
    rw [checkTickets, Bool.and_eq_true] at hchk
    obtain ⟨hok, hrest⟩ := hchk
    refine List.Pairwise.cons ?_ (ih _ hrest)
    intro b hb hkey
    have hsA := checkTickets_acc rest (shadowTicket a :: acc) hrest b hb
    rw [seatTaken_eq_false] at hsA
    exact hsA (shadowTicket a) (List.mem_cons_self _ _)
      ⟨hkey.1, hkey.2.1, hkey.2.2⟩

theorem mem_ticketsOf {oid : Nat} :
    ∀ (trs : List TicketRequest) (base : Nat) (t : Ticket),
      t ∈ ticketsOf oid trs base →
      ∃ tr ∈ trs, t.movie_session_id = tr.movie_session_id ∧
        t.row = tr.row ∧ t.seat = tr.seat := by
  intro trs
  induction trs with
  | nil => intro base t ht; simp [ticketsOf] at ht
  | cons a rest ih =>
    intro base t ht
    rw [ticketsOf] at ht
    rcases List.mem_cons.mp ht with rfl | hmem
    · exact ⟨a, List.mem_cons_self _ _, rfl, rfl, rfl⟩
    · rcases ih _ _ hmem with ⟨tr, htr, hk⟩
      exact ⟨tr, List.mem_cons_of_mem _ htr, hk⟩

theorem ticketsOf_pairwise {oid : Nat} :
    ∀ (trs : List TicketRequest) (base : Nat),
      (trs.Pairwise fun a b =>
        ¬(a.movie_session_id = b.movie_session_id ∧ a.row = b.row ∧ a.seat = b.seat)) →
      seatsNodup (ticketsOf oid trs base) := by
  intro trs
  induction trs with
  | nil => intro base _; exact List.Pairwise.nil
  | cons a rest ih =>
    intro base hp
    rcases List.pairwise_cons.mp hp with ⟨ha, hrest⟩
    rw [ticketsOf]
    refine List.Pairwise.cons ?_ (ih _ hrest)
    intro t ht hkey
    rcases mem_ticketsOf rest (base + 1) t ht with ⟨tr, htr, h1, h2, h3⟩
    exact ha tr htr ⟨hkey.1.trans h1, hkey.2.1.trans h2, hkey.2.2.trans h3⟩

theorem intListOf_error_eq :
    ∀ {l : List String} {e : PyError}, intListOf l = .error e → e = .valueError := by
  intro l
  induction l with
  | nil => intro e h; simp [intListOf] at h
  | cons s rest ih =>
    intro e h
    rw [intListOf] at h
    cases hs : pyInt s with
    | error e' =>
      rw [hs] at h
      cases h
      exact pyInt_error hs
    | ok v =>
      rw [hs] at h
      cases hr : intListOf rest with
      | error e' =>
        rw [hr] at h
        cases h
        exact ih hr
      | ok vs =>
        rw [hr] at h
        exact Except.noConfusion h

theorem filterByRel_error_eq {sel : Movie → List Nat} {p? : Option String}
    {qs : List Movie} {e : PyError} (h : filterByRel sel p? qs = .error e) :
    e = .valueError := by
  cases p? with
  | none => simp [filterByRel, pure_eq_ok] at h
  | some g =>
    by_cases hg : g = ""
    · subst hg
      simp [filterByRel, pure_eq_ok] at h
    · rw [filterByRel, if_pos hg] at h
      cases hp : params_to_ints g with
      | error e' =>
        rw [hp, error_bind] at h
        cases h
        exact intListOf_error_eq hp
      | ok ids =>
        rw [hp, ok_bind, pure_eq_ok] at h
        exact Except.noConfusion h

theorem filterByDate_error_eq {d? : Option String} {qs : List MovieSession}
    {e : PyError} (h : filterByDate d? qs = .error e) : e = .valueError := by
  cases d? with
  | none => simp [filterByDate, pure_eq_ok] at h
  | some ds =>
    by_cases hd : ds = ""
    · subst hd
      simp [filterByDate, pure_eq_ok] at h
    · rw [filterByDate, if_pos hd] at h
      cases hp : strptimeYmd ds with
      | error e' =>
        rw [hp, error_bind] at h
        cases h
        exact strptimeYmd_error hp
      | ok d =>
        rw [hp, ok_bind, pure_eq_ok] at h
        exact Except.noConfusion h

theorem ordersCreate_ok_user {db : DB} {u : Nat} {p : OrderPayload}
    {o : Order} {db' : DB} (h : ordersCreate db u p = (.ok o, db')) :
    o.user_id = u := by
  unfold ordersCreate at h
  by_cases he : p.tickets = []
  · simp [he] at h
  · rw [if_neg he] at h
    by_cases hc : checkTickets db p.tickets [] = true
    · rw [if_pos hc] at h
      have ho := congrArg Prod.fst h
      simp only [Except.ok.injEq] at ho
      rw [← ho]
      simp [savedUserId]
    · rw [if_neg hc] at h
      simp at h

/-! ### Claim theorems -/

/-- **C4**: `orders.list` returns exactly the requesting user's orders —
an order is in the result iff it is stored and belongs to the requesting
user, and an order of a different user is never returned. -/
theorem C4_orders_list_only_own (db : DB) (u : Nat) (o : Order) :
    (o ∈ ordersGetQueryset db u ↔ o ∈ db.orders ∧ o.user_id = u) ∧
    (o.user_id ≠ u → o ∉ ordersGetQueryset db u) := by
  constructor
  · simp [ordersGetQueryset, List.mem_filter]
  · intro hne hmem
    rcases List.mem_filter.mp hmem with ⟨_, hu⟩
    exact hne (by simpa using hu)

/-- Evaluation witness for `C4_orders_list_only_own` on the sample
store. -/
theorem C4_orders_list_only_own_witness :
    ((⟨1, 5⟩ : Order) ∈ ordersGetQueryset sampleDB 7 ↔
      (⟨1, 5⟩ : Order) ∈ sampleDB.orders ∧ (⟨1, 5⟩ : Order).user_id = 7) ∧
    ((⟨1, 5⟩ : Order).user_id ≠ 7 →
      (⟨1, 5⟩ : Order) ∉ ordersGetQueryset sampleDB 7) :=
  C4_orders_list_only_own sampleDB 7 ⟨1, 5⟩

/-- **C9**: a filter query parameter that is present but equal to the
empty string is falsy in Python, so each `if param:` block skips it: the
request behaves exactly as if the parameter were absent, and no error is
raised. -/
theorem C9_empty_param_behaves_as_absent
    (db : DB) (t? g? a? d? m? : Option String) :
    moviesGetQueryset db (some "") g? a? = moviesGetQueryset db none g? a? ∧
    moviesGetQueryset db t? (some "") a? = moviesGetQueryset db t? none a? ∧
    moviesGetQueryset db t? g? (some "") = moviesGetQueryset db t? g? none ∧
    sessionsGetQueryset db (some "") m? = sessionsGetQueryset db none m? ∧
    sessionsGetQueryset db d? (some "") = sessionsGetQueryset db d? none := by
  refine ⟨?_, ?_, ?_, ?_, ?_⟩ <;>
    simp [moviesGetQueryset, sessionsGetQueryset, filterByTitle, filterByRel,
      filterByDate, filterByMovieId]

/-- **C10**: a non-empty `date` parameter that `strptime` cannot parse as
`YYYY-MM-DD` makes the whole request raise that `ValueError`; the date
filter is never silently dropped. -/
theorem C10_invalid_date_param_raises
    (db : DB) (m? : Option String) (ds : String) (e : PyError)
    (hne : ds ≠ "") (hbad : strptimeYmd ds = .error e) :
    sessionsGetQueryset db (some ds) m? = .error e ∧ e = .valueError := by
  refine ⟨?_, strptimeYmd_error hbad⟩
  unfold sessionsGetQueryset
  have hstage : filterByDate (some ds) db.sessions = .error e := by
    rw [filterByDate, if_pos hne, hbad, error_bind]
  rw [hstage, error_bind]

/-- Evaluation witness for `C10_invalid_date_param_raises`: month 13 does
not parse. -/
theorem C10_invalid_date_param_raises_witness :
    (("2024-13-01" : String) ≠ "") ∧
    strptimeYmd "2024-13-01" = .error .valueError ∧
    sessionsGetQueryset sampleDB (some "2024-13-01") none = .error .valueError :=
  ⟨by decide, by decide,
    (C10_invalid_date_param_raises sampleDB none "2024-13-01" .valueError
      (by decide) (by decide)).1⟩

/-- **C8** counterexample: `MovieSessionViewSet` subclasses
`viewsets.ModelViewSet`, so the movie-sessions resource *does* expose
`destroy` (DELETE) and `update` (PUT) — the claim that no endpoint
offers delete or update, and that movie-sessions exposes only list,
create and retrieve, is false on the code. -/
theorem C8_counterexample_movie_sessions_expose_destroy :
    ViewAction.destroy ∈ movieSessionViewSetActions ∧
    ViewAction.update ∈ movieSessionViewSetActions := by decide

/-- **C8** (amended): every exposed viewset except movie-sessions offers
neither delete nor (partial) update; movie-sessions alone, being a full
`ModelViewSet`, additionally exposes `update`, `partial_update` and
`destroy`. -/
theorem C8_no_delete_except_movie_sessions :
    (∀ p ∈ allViewSets, p.1 ≠ "movie_sessions" →
      ViewAction.destroy ∉ p.2 ∧ ViewAction.update ∉ p.2 ∧
        ViewAction.partial_update ∉ p.2) ∧
    movieSessionViewSetActions =
      [.list, .create, .retrieve, .update, .partial_update, .destroy] := by
  decide

/-- **C2**: `tickets_available` is the annotation
`rows * seats_in_row - Count(tickets)` recomputed from the live tables:
it equals hall capacity minus the tickets persisted for the session, and
after any write that appends orders and tickets the re-read value
accounts exactly for the new tickets of this session. -/
theorem C2_tickets_available_capacity_minus_sold
    (db : DB) (s : MovieSession) (h : CinemaHall)
    (newOrders : List Order) (newTickets : List Ticket)
    (hh : getHall db s.cinema_hall_id = some h) :
    tickets_available db s =
      some ((h.rows * h.seats_in_row : Int) - (countTickets db s.id : Int)) ∧
    tickets_available
        { db with orders := db.orders ++ newOrders,
                  tickets := db.tickets ++ newTickets } s =
      some ((h.rows * h.seats_in_row : Int) - ((countTickets db s.id : Int) +
        ((newTickets.filter fun t => t.movie_session_id = s.id).length : Int))) := by
  have hh' : getHall
      { db with orders := db.orders ++ newOrders,
                tickets := db.tickets ++ newTickets } s.cinema_hall_id = some h := hh
  constructor
  · rw [tickets_available, hh]
    simp only [Option.map_some', Option.some.injEq]
  · rw [tickets_available, hh']
    simp only [Option.map_some', Option.some.injEq, countTickets,
      List.filter_append, List.length_append]
    push_cast
    ring

/-- Evaluation witness for `C2_tickets_available_capacity_minus_sold`:
the sample session has capacity 50 and three sold tickets, and one more
ticket lowers the re-read availability by one. -/
theorem C2_tickets_available_capacity_minus_sold_witness :
    tickets_available sampleDB sess1 =
      some ((hall1.rows * hall1.seats_in_row : Int) -
        (countTickets sampleDB sess1.id : Int)) ∧
    tickets_available
        { sampleDB with orders := sampleDB.orders ++ [⟨2, 7⟩],
                        tickets := sampleDB.tickets ++ [⟨4, 1, 2, 2, 5⟩] } sess1 =
      some ((hall1.rows * hall1.seats_in_row : Int) -
        ((countTickets sampleDB sess1.id : Int) +
          ((([⟨4, 1, 2, 2, 5⟩] : List Ticket).filter
            fun t => t.movie_session_id = sess1.id).length : Int))) :=
  C2_tickets_available_capacity_minus_sold sampleDB sess1 hall1
    [⟨2, 7⟩] [⟨4, 1, 2, 2, 5⟩] (by decide)

/-- **C6**: `movie-sessions.list` — with no parameters every session is
returned; a valid `date` parameter keeps exactly the sessions whose show
time falls on that calendar day; a valid `movie` parameter keeps exactly
the sessions of that movie id; together they are conjunctive. -/
theorem C6_sessions_list_filters
    (db : DB) (ds ms : String) (d : PyDate) (mid : Int)
    (hd : strptimeYmd ds = .ok d) (hm : pyInt ms = .ok mid) :
    sessionsGetQueryset db none none = .ok db.sessions ∧
    sessionsGetQueryset db (some ds) none =
      .ok (db.sessions.filter fun s => s.show_time.date = d) ∧
    sessionsGetQueryset db none (some ms) =
      .ok (db.sessions.filter fun s => (s.movie_id : Int) = mid) ∧
    sessionsGetQueryset db (some ds) (some ms) =
      .ok ((db.sessions.filter fun s => s.show_time.date = d).filter
        fun s => (s.movie_id : Int) = mid) := by
  have hne : ds ≠ "" := strptimeYmd_ok_ne hd
  have hmne : ms ≠ "" := pyInt_ok_ne hm
  refine ⟨?_, ?_, ?_, ?_⟩ <;>
    simp [sessionsGetQueryset, filterByDate, filterByMovieId, hne, hmne,
      hd, hm, error_bind, ok_bind, pure_eq_ok]

/-- Evaluation witness for `C6_sessions_list_filters` on the sample
store. -/
theorem C6_sessions_list_filters_witness :
    strptimeYmd "2024-10-10" = .ok ⟨2024, 10, 10⟩ ∧
    pyInt "1" = .ok 1 ∧
    (sessionsGetQueryset sampleDB none none = .ok sampleDB.sessions ∧
     sessionsGetQueryset sampleDB (some "2024-10-10") none =
       .ok (sampleDB.sessions.filter fun s =>
         s.show_time.date = (⟨2024, 10, 10⟩ : PyDate)) ∧
     sessionsGetQueryset sampleDB none (some "1") =
       .ok (sampleDB.sessions.filter fun s => (s.movie_id : Int) = 1) ∧
     sessionsGetQueryset sampleDB (some "2024-10-10") (some "1") =
       .ok ((sampleDB.sessions.filter fun s =>
         s.show_time.date = (⟨2024, 10, 10⟩ : PyDate)).filter
           fun s => (s.movie_id : Int) = 1)) :=
  ⟨by decide, by decide,
    C6_sessions_list_filters sampleDB "2024-10-10" "1" ⟨2024, 10, 10⟩ 1
      (by decide) (by decide)⟩

/-- **C1**: `movies.list` — the result of a successful request is
duplicate-free and contains a movie iff it is stored and matches every
present filter (case-insensitive substring on `title`; for `genres` and
`actors`, any of the comma-listed ids — OR within a filter, AND across
filters). -/
theorem C1_movies_list_intersection_dedup
    (db : DB) (t? g? a? : Option String) (res : List Movie) (m : Movie)
    (h : moviesGetQueryset db t? g? a? = .ok res) :
    res.Nodup ∧
      (m ∈ res ↔ m ∈ db.movies ∧ titleMatches t? m = true ∧
        relMatches Movie.genres g? m = true ∧
        relMatches Movie.actors a? m = true) := by
  unfold moviesGetQueryset at h
  cases h2 : filterByRel Movie.genres g? (filterByTitle t? db.movies) with
  | error e =>
    rw [h2, error_bind] at h
    exact absurd h (by simp)
  | ok q2 =>
    rw [h2, ok_bind] at h
    cases h3 : filterByRel Movie.actors a? q2 with
    | error e =>
      rw [h3, error_bind] at h
      exact absurd h (by simp)
    | ok q3 =>
      rw [h3, ok_bind, pure_eq_ok, Except.ok.injEq] at h
      subst h
      refine ⟨List.nodup_dedup _, ?_⟩
      rw [List.mem_dedup, filterByRel_ok h3 m, filterByRel_ok h2 m,
        mem_filterByTitle]
      tauto

/-- Evaluation witness for `C1_movies_list_intersection_dedup`: filtering
the sample store by `title=cept&genres=1,2` returns exactly `movie1`,
once. -/
theorem C1_movies_list_intersection_dedup_witness :
    moviesGetQueryset sampleDB (some "cept") (some "1,2") none =
      .ok [movie1] ∧
    (([movie1] : List Movie).Nodup ∧
      (movie1 ∈ ([movie1] : List Movie) ↔ movie1 ∈ sampleDB.movies ∧
        titleMatches (some "cept") movie1 = true ∧
        relMatches Movie.genres (some "1,2") movie1 = true ∧
        relMatches Movie.actors none movie1 = true)) :=
  ⟨by decide,
    C1_movies_list_intersection_dedup sampleDB (some "cept") (some "1,2")
      none [movie1] movie1 (by decide)⟩

/-- **C7** counterexample: on a malformed `genres` parameter the view
raises the `ValueError` thrown by `int()` — nothing converts it into a
DRF `ValidationError`, so the claim's stated error class is wrong (the
filter is still not silently ignored). -/
theorem C7_counterexample_value_error_not_validation :
    moviesGetQueryset sampleDB none (some "one,two") none =
      .error .valueError ∧
    (PyError.valueError ≠ PyError.validationError) := by decide

/-- **C7** (amended): a list request whose `genres`, `actors` or `movie`
parameter contains a non-integer token always raises the `ValueError`
from `int()` (an unhandled server error, not a DRF `ValidationError`);
the malformed filter is never silently dropped and no result is
computed as if it were absent. -/
theorem C7_malformed_id_param_raises
    (db : DB) (t? g? a? d? : Option String) (g ms : String)
    (hg : ∃ tok ∈ pySplit g ',', pyIntCore tok.data = none) (hgne : g ≠ "")
    (hm : pyIntCore ms.data = none) (hmne : ms ≠ "") :
    moviesGetQueryset db t? (some g) a? = .error .valueError ∧
    moviesGetQueryset db t? g? (some g) = .error .valueError ∧
    sessionsGetQueryset db d? (some ms) = .error .valueError := by
  have hpg : params_to_ints g = .error .valueError := params_to_ints_error hg
  have hrel : ∀ (sel : Movie → List Nat) (qs : List Movie),
      filterByRel sel (some g) qs = .error .valueError := by
    intro sel qs
    rw [filterByRel, if_pos hgne, hpg, error_bind]
  refine ⟨?_, ?_, ?_⟩
  · unfold moviesGetQueryset
    rw [hrel _ _, error_bind]
  · unfold moviesGetQueryset
    cases h2 : filterByRel Movie.genres g? (filterByTitle t? db.movies) with
    | error e => rw [error_bind, filterByRel_error_eq h2]
    | ok q2 => rw [ok_bind, hrel _ _, error_bind]
  · unfold sessionsGetQueryset
    have hmv : ∀ qs : List MovieSession,
        filterByMovieId (some ms) qs = .error .valueError := by
      intro qs
      have hpm : pyInt ms = .error .valueError := by unfold pyInt; rw [hm]
      rw [filterByMovieId, if_pos hmne, hpm, error_bind]
    cases hd : filterByDate d? db.sessions with
    | error e => rw [error_bind, filterByDate_error_eq hd]
    | ok q1 => rw [ok_bind, hmv _, error_bind]

/-- Evaluation witness for `C7_malformed_id_param_raises` at the
malformed parameters `genres=one,two` and `movie=x`. -/
theorem C7_malformed_id_param_raises_witness :
    (∃ tok ∈ pySplit "one,two" ',', pyIntCore tok.data = none) ∧
    (("one,two" : String) ≠ "") ∧
    pyIntCore ("x" : String).data = none ∧ (("x" : String) ≠ "") ∧
    (moviesGetQueryset sampleDB none (some "one,two") none =
        .error .valueError ∧
      moviesGetQueryset sampleDB none none (some "one,two") =
        .error .valueError ∧
      sessionsGetQueryset sampleDB none (some "x") = .error .valueError) :=
  ⟨⟨"one", by decide, by decide⟩, by decide, by decide, by decide,
    C7_malformed_id_param_raises sampleDB none none none none "one,two" "x"
      ⟨"one", by decide, by decide⟩ (by decide) (by decide) (by decide)⟩

/-- **C5**: `perform_create` saves with `user=self.request.user`, and the
serializer's kwargs override any owner field of the payload — so two
creations with the same tickets but different owner fields in the
payloads end up owned by their respective authenticated callers. -/
theorem C5_order_owner_is_authenticated_caller
    (db : DB) (u1 u2 : Nat) (p1 p2 : OrderPayload) (o1 o2 : Order)
    (db1 db2 : DB)
    (htk : p1.tickets = p2.tickets)
    (h1 : ordersCreate db u1 p1 = (.ok o1, db1))
    (h2 : ordersCreate db u2 p2 = (.ok o2, db2)) :
    o1.user_id = u1 ∧ o2.user_id = u2 :=
  ⟨ordersCreate_ok_user h1, ordersCreate_ok_user h2⟩

/-- Evaluation witness for `C5_order_owner_is_authenticated_caller`: two
callers submit the same ticket with spoofed owner fields 99 and 55; the
persisted orders belong to callers 7 and 8. -/
theorem C5_order_owner_is_authenticated_caller_witness :
    (⟨[⟨1, 2, 5⟩], some 99⟩ : OrderPayload).tickets =
      (⟨[⟨1, 2, 5⟩], some 55⟩ : OrderPayload).tickets ∧
    ordersCreate sampleDB 7 ⟨[⟨1, 2, 5⟩], some 99⟩ =
      (.ok ⟨2, 7⟩,
       { sampleDB with orders := sampleDB.orders ++ [⟨2, 7⟩],
                       tickets := sampleDB.tickets ++ [⟨4, 1, 2, 2, 5⟩] }) ∧
    ordersCreate sampleDB 8 ⟨[⟨1, 2, 5⟩], some 55⟩ =
      (.ok ⟨2, 8⟩,
       { sampleDB with orders := sampleDB.orders ++ [⟨2, 8⟩],
                       tickets := sampleDB.tickets ++ [⟨4, 1, 2, 2, 5⟩] }) ∧
    ((⟨2, 7⟩ : Order).user_id = 7 ∧ (⟨2, 8⟩ : Order).user_id = 8) :=
  ⟨rfl, by decide, by decide,
    C5_order_owner_is_authenticated_caller sampleDB 7 8
      ⟨[⟨1, 2, 5⟩], some 99⟩ ⟨[⟨1, 2, 5⟩], some 55⟩ ⟨2, 7⟩ ⟨2, 8⟩
      { sampleDB with orders := sampleDB.orders ++ [⟨2, 7⟩],
                      tickets := sampleDB.tickets ++ [⟨4, 1, 2, 2, 5⟩] }
      { sampleDB with orders := sampleDB.orders ++ [⟨2, 8⟩],
                      tickets := sampleDB.tickets ++ [⟨4, 1, 2, 2, 5⟩] }
      rfl (by decide) (by decide)⟩

/-- **C3**: `orders.create` is atomic: an out-of-bounds seat or an
already-occupied `(session, row, seat)` makes the whole request fail
with `ValidationError` and leaves the store untouched; any error leaves
the store untouched; and a success appends exactly the order with all
its tickets, every ticket was within its hall's bounds, and
seat-uniqueness across the whole system is preserved. -/
theorem C3_orders_create_atomic_seat_validation
    (db : DB) (caller : Nat) (p : OrderPayload) (o : Order) (db' : DB)
    (e : PyError) (dbe : DB)
    (hne : p.tickets ≠ []) :
    ((∃ tr ∈ p.tickets, requestOutOfBounds db tr) →
      ordersCreate db caller p = (.error .validationError, db)) ∧
    ((∃ tr ∈ p.tickets,
        seatTaken db.tickets tr.movie_session_id tr.row tr.seat = true) →
      ordersCreate db caller p = (.error .validationError, db)) ∧
    (ordersCreate db caller p = (.error e, dbe) →
      e = .validationError ∧ dbe = db) ∧
    (ordersCreate db caller p = (.ok o, db') →
      db' = { db with
              orders := db.orders ++ [o],
              tickets := db.tickets ++
                ticketsOf o.id p.tickets (freshTicketId db) } ∧
      (∀ tr ∈ p.tickets, ∃ s,
        (db.sessions.find? fun x => x.id = tr.movie_session_id) = some s ∧
        ∃ hl, getHall db s.cinema_hall_id = some hl ∧
          ticketWithinBounds hl tr.row tr.seat = true) ∧
      (seatsNodup db.tickets → seatsNodup db'.tickets)) := by
  refine ⟨?_, ?_, ?_, ?_⟩
  · rintro ⟨tr, htr, hoob⟩
    have hfc := checkTickets_false (ticketOk_false_of_oob hoob) p.tickets [] htr
    simp [ordersCreate, hne, hfc]
  · rintro ⟨tr, htr, htk⟩
    have hfc := checkTickets_false (ticketOk_false_of_taken htk) p.tickets [] htr
    simp [ordersCreate, hne, hfc]
  · intro herr
    unfold ordersCreate at herr
    rw [if_neg hne] at herr
    by_cases hc : checkTickets db p.tickets [] = true
    · rw [if_pos hc] at herr
      simp at herr
    · rw [if_neg hc] at herr
      have h1 := congrArg Prod.fst herr
      have h2 := congrArg Prod.snd herr
      simp only [Except.error.injEq] at h1
      exact ⟨h1.symm, h2.symm⟩
  · intro hok
    unfold ordersCreate at hok
    rw [if_neg hne] at hok
    by_cases hc : checkTickets db p.tickets [] = true
    · rw [if_pos hc] at hok
      rw [Prod.mk.injEq, Except.ok.injEq] at hok
      obtain ⟨h1, h2⟩ := hok
      refine ⟨?_, ?_, ?_⟩
      · rw [← h1]
        exact h2.symm
      · intro tr htr
        rcases checkTickets_each p.tickets [] hc tr htr with
          ⟨s, hf, hl, hhall, hb, _⟩
        exact ⟨s, hf, hl, hhall, hb⟩
      · intro hold
        rw [← h2]
        show seatsNodup
          (db.tickets ++ ticketsOf (freshOrderId db) p.tickets (freshTicketId db))
        unfold seatsNodup
        rw [List.pairwise_append]
        refine ⟨hold,
          ticketsOf_pairwise p.tickets _ (checkTickets_pairwise p.tickets [] hc),
          ?_⟩
        intro a ha b hb
        rcases mem_ticketsOf p.tickets _ b hb with ⟨tr, htr, k1, k2, k3⟩
        rcases checkTickets_each p.tickets [] hc tr htr with
          ⟨s, _, hl, _, _, hfree⟩
        rw [seatTaken_eq_false] at hfree
        intro hkey
        exact hfree a ha
          ⟨hkey.1.trans k1, hkey.2.1.trans k2, hkey.2.2.trans k3⟩
    · rw [if_neg hc] at hok
      simp at hok

/-- Evaluation witness for `C3_orders_create_atomic_seat_validation` on a
valid one-ticket order in the sample store. -/
theorem C3_orders_create_atomic_seat_validation_witness :
    ((⟨[⟨1, 2, 5⟩], none⟩ : OrderPayload).tickets ≠ []) ∧
    (((∃ tr ∈ (⟨[⟨1, 2, 5⟩], none⟩ : OrderPayload).tickets,
        requestOutOfBounds sampleDB tr) →
      ordersCreate sampleDB 7 ⟨[⟨1, 2, 5⟩], none⟩ =
        (.error .validationError, sampleDB)) ∧
    ((∃ tr ∈ (⟨[⟨1, 2, 5⟩], none⟩ : OrderPayload).tickets,
        seatTaken sampleDB.tickets tr.movie_session_id tr.row tr.seat = true) →
      ordersCreate sampleDB 7 ⟨[⟨1, 2, 5⟩], none⟩ =
        (.error .validationError, sampleDB)) ∧
    (ordersCreate sampleDB 7 ⟨[⟨1, 2, 5⟩], none⟩ =
        (.error .validationError, sampleDB) →
      PyError.validationError = .validationError ∧ sampleDB = sampleDB) ∧
    (ordersCreate sampleDB 7 ⟨[⟨1, 2, 5⟩], none⟩ =
        (.ok ⟨2, 7⟩,
         { sampleDB with orders := sampleDB.orders ++ [⟨2, 7⟩],
                         tickets := sampleDB.tickets ++ [⟨4, 1, 2, 2, 5⟩] }) →
      { sampleDB with orders := sampleDB.orders ++ [⟨2, 7⟩],
                      tickets := sampleDB.tickets ++ [⟨4, 1, 2, 2, 5⟩] } =
        { sampleDB with
          orders := sampleDB.orders ++ [(⟨2, 7⟩ : Order)],
          tickets := sampleDB.tickets ++
            ticketsOf (⟨2, 7⟩ : Order).id
              (⟨[⟨1, 2, 5⟩], none⟩ : OrderPayload).tickets
              (freshTicketId sampleDB) } ∧
      (∀ tr ∈ (⟨[⟨1, 2, 5⟩], none⟩ : OrderPayload).tickets, ∃ s,
        (sampleDB.sessions.find? fun x => x.id = tr.movie_session_id) =
          some s ∧
        ∃ hl, getHall sampleDB s.cinema_hall_id = some hl ∧
          ticketWithinBounds hl tr.row tr.seat = true) ∧
      (seatsNodup sampleDB.tickets →
        seatsNodup
          ({ sampleDB with
             orders := sampleDB.orders ++ [⟨2, 7⟩],
             tickets := sampleDB.tickets ++ [⟨4, 1, 2, 2, 5⟩] } : DB).tickets))) :=
  ⟨by decide,
    C3_orders_create_atomic_seat_validation sampleDB 7 ⟨[⟨1, 2, 5⟩], none⟩
      ⟨2, 7⟩
      { sampleDB with orders := sampleDB.orders ++ [⟨2, 7⟩],
                      tickets := sampleDB.tickets ++ [⟨4, 1, 2, 2, 5⟩] }
      .validationError sampleDB (by decide)⟩

end Cinema
